import Mathlib

/-!
Shallow embedding of the MERN e-commerce backend (Express + Mongoose routes).

The repository's handlers are thin translations from an HTTP verb to a single
Mongoose query on one of three collections (Product, Cart, User).  We embed
each collection as a list of documents together with a counter supplying the
next generated document id, each HTTP response as a status code plus a JSON
body, and each route handler as a pure function from (store, request data) to
(updated store, response).  Handlers that can write the response object more
than once (Express commits the first write; later writes fail with
ERR_HTTP_HEADERS_SENT) are embedded as functions returning the ordered list of
write attempts, and the committed response is the head of that list.
-/

/-! ## Documents and stores -/

/-- The request body of POST /carts (routes/cart.router.js, Cart swagger
schema): productId, name, email, image, price, quantity.  No id: the client
payload is not yet a stored document. -/
structure CartInput where
  productId : String
  name : String
  email : String
  image : String
  price : Int
  quantity : Int
deriving Repr, DecidableEq

/-- A stored Cart document: the input fields plus the generated document id. -/
structure CartDoc where
  id : Nat
  productId : String
  name : String
  email : String
  image : String
  price : Int
  quantity : Int
deriving Repr, DecidableEq

/-- A stored Product document (routes/product.router.js, Product swagger
schema): name, price, description, image, category, plus the generated id. -/
structure ProductDoc where
  id : Nat
  name : String
  price : Int
  description : String
  image : String
  category : String
deriving Repr, DecidableEq

/-- The request body of POST /users (routes/user.router.js).  photoURL and
role may be absent from the JSON body (the handler then defaults them), so
they are embedded as Option String. -/
structure UserInput where
  name : String
  email : String
  photoURL : Option String
  role : Option String
deriving Repr, DecidableEq

/-- A stored User document: after creation photoURL and role are always
present (the handler fills both in before saving). -/
structure UserDoc where
  id : Nat
  name : String
  email : String
  photoURL : String
  role : String
deriving Repr, DecidableEq

/-- The Cart collection: stored documents plus the next generated id. -/
structure CartStore where
  docs : List CartDoc
  nextId : Nat
deriving Repr, DecidableEq

/-- The Product collection. -/
structure ProductStore where
  docs : List ProductDoc
  nextId : Nat
deriving Repr, DecidableEq

/-- The User collection. -/
structure UserStore where
  docs : List UserDoc
  nextId : Nat
deriving Repr, DecidableEq

/-! ## Responses -/

/-- The JSON bodies the embedded handlers can serialize. -/
inductive Body where
  | cartInput (c : CartInput)
  | cartDoc (d : CartDoc)
  | cartList (l : List CartDoc)
  | productDoc (p : ProductDoc)
  | userDoc (u : UserDoc)
  | userNull
  | deleteResult (acknowledged : Bool) (deletedCount : Nat)
  | isAdminFlag (b : Bool)
  | message (m : String)
deriving Repr, DecidableEq

/-- One write of the Express response object: status code and JSON body.
res.json(x) with no preceding res.status(s) writes status 200. -/
structure Resp where
  status : Nat
  body : Body
deriving Repr, DecidableEq

/-- Express commits the first write of the response; any later write attempt
raises ERR_HTTP_HEADERS_SENT and changes nothing on the wire.  So the
committed response of a handler embedded as a list of write attempts is the
head of the list. -/
def committed (attempts : List Resp) : Option Resp := attempts.head?

/-! ## Literal strings of the handlers -/

def cartNotFoundMsg : String := "Cart item not found"

def emptyCartMsg : String := "Empty cart"

def userExistsMsg : String := "User already exists"

def userNotFoundMsg : String := "User is not found"

def productNotFoundMsg : String := "Product not found"

/-- The message of the TypeError Node raises when the admin-check handler
reads .role off the null result of findOne; the real message punctuates the
word role with quote characters, which we omit. -/
def nullRoleReadMsg : String := "Cannot read properties of null (reading role)"

def defaultPhotoURL : String :=
  "https://daisyui.com/images/stock/photo-1534528741775-53994a69daeb.jpg"

def defaultRole : String := "user"

def adminRole : String := "admin"

/-! ## JavaScript truthiness, where the handlers branch on it -/

/-- In JavaScript every object is truthy, arrays included, even empty ones;
Mongoose find() resolves to an array, so a guard of the form !carts on a
find() result never fires. -/
def jsArrayTruthy {α : Type} (_ : List α) : Bool := true

/-- JS truthiness of a possibly-absent string field of a request body: absent
(undefined) and the empty string are falsy, every other string is truthy. -/
def jsStrTruthy : Option String → Bool
  | none => false
  | some s => !(s == "")

/-! ## List helpers embedding Mongoose store writes -/

/-- Replace the first element satisfying p by f of it, leaving everything else
in place: the effect of loading a document with findOne and calling save() on
the mutated document. -/
def updateFirst {α : Type} (p : α → Bool) (f : α → α) : List α → List α
  | [] => []
  | d :: ds => if p d then f d :: ds else d :: updateFirst p f ds

/-- The filter Mongoose applies for findOne({productId, email}) in the cart
create handler. -/
def isCartMatch (productId email : String) (d : CartDoc) : Bool :=
  d.productId == productId && d.email == email

/-! ## Cart handlers (routes/cart.router.js) -/

/-- POST /carts (cart.router.js lines 145-164): findOne by (productId, email);
if found, increment its quantity by the incoming quantity, save, and respond
200 with the INPUT payload; else save a new document and respond 201 with the
new stored document. -/
def cartRouterPost (store : CartStore) (cart : CartInput) : CartStore × Resp :=
  match store.docs.find? (isCartMatch cart.productId cart.email) with
  | some existingCart =>
      let merged := { existingCart with quantity := existingCart.quantity + cart.quantity }
      ({ store with
          docs := updateFirst (isCartMatch cart.productId cart.email) (fun _ => merged) store.docs },
        ⟨200, Body.cartInput cart⟩)
  | none =>
      let newCart : CartDoc :=
        { id := store.nextId, productId := cart.productId, name := cart.name,
          email := cart.email, image := cart.image, price := cart.price,
          quantity := cart.quantity }
      ({ docs := store.docs ++ [newCart], nextId := store.nextId + 1 },
        ⟨201, Body.cartDoc newCart⟩)

/-- GET /carts/:email (cart.router.js lines 102-115): find({email}) yields an
array; the handler writes a 404 when that array is falsy (never, in JS) and
then, with no early return, always writes 200 with the array.  Embedded as the
ordered list of response write attempts. -/
def cartRouterGetByEmail (store : CartStore) (email : String) : List Resp :=
  let carts := store.docs.filter (fun d => d.email == email)
  (if jsArrayTruthy carts then [] else [⟨404, Body.message cartNotFoundMsg⟩])
    ++ [⟨200, Body.cartList carts⟩]

/-- DELETE /carts/clear/:email (cart.router.js lines 276-290): deleteMany by
email; respond 200 with the deletion result when deletedCount is positive,
else 404 with the empty-cart message. -/
def cartRouterDeleteClear (store : CartStore) (email : String) : CartStore × Resp :=
  let deletedCount := (store.docs.filter (fun d => d.email == email)).length
  let store2 : CartStore := { store with docs := store.docs.filter (fun d => !(d.email == email)) }
  if deletedCount > 0 then
    (store2, ⟨200, Body.deleteResult true deletedCount⟩)
  else
    (store2, ⟨404, Body.message emptyCartMsg⟩)

/-! ## User handlers (routes/user.router.js) -/

/-- POST /users (user.router.js lines 121-144): findOne by email; if a user
exists respond 302 and insert nothing; else default photoURL and role when
the body's fields are falsy, save the new document and respond 201 with it.
(In the source, user aliases req.body, so the defaults written onto req.body
are the values the new document is built from.) -/
def userRouterPost (store : UserStore) (user : UserInput) : UserStore × Resp :=
  match store.docs.find? (fun d => d.email == user.email) with
  | some _ => (store, ⟨302, Body.message userExistsMsg⟩)
  | none =>
      let photoURL := if jsStrTruthy user.photoURL then user.photoURL.getD "" else defaultPhotoURL
      let role := if jsStrTruthy user.role then user.role.getD "" else defaultRole
      let newUser : UserDoc :=
        { id := store.nextId, name := user.name, email := user.email,
          photoURL := photoURL, role := role }
      ({ docs := store.docs ++ [newUser], nextId := store.nextId + 1 },
        ⟨201, Body.userDoc newUser⟩)

/-- GET /users/:id (user.router.js lines 84-97): findById; on a null result
the handler writes a 404 message and then, with no early return, still
attempts res.json(user), a 200 write with a null body.  Embedded as the
ordered list of response write attempts. -/
def userRouterGetById (store : UserStore) (id : Nat) : List Resp :=
  match store.docs.find? (fun d => d.id == id) with
  | none => [⟨404, Body.message userNotFoundMsg⟩, ⟨200, Body.userNull⟩]
  | some u => [⟨200, Body.userDoc u⟩]

/-- GET /users/admin/:email (user.router.js lines 250-262), after verifyToken
has passed: findOne by email, then read .role off the result with no null
guard.  When the user is absent the read throws a TypeError, caught by the
catch block, which responds 500 with the error message. -/
def userRouterGetAdminByEmail (store : UserStore) (email : String) : Resp :=
  match store.docs.find? (fun d => d.email == email) with
  | none => ⟨500, Body.message nullRoleReadMsg⟩
  | some user => ⟨200, Body.isAdminFlag (user.role == adminRole)⟩

/-! ## Product handlers (routes/product.router.js) -/

/-- DELETE /products/:id (product.router.js lines 314-324): findByIdAndDelete;
404 when no document has the id, else remove it and respond 200 with the
deleted document. -/
def productRouterDeleteById (store : ProductStore) (id : Nat) : ProductStore × Resp :=
  match store.docs.find? (fun d => d.id == id) with
  | none => (store, ⟨404, Body.message productNotFoundMsg⟩)
  | some product =>
      ({ store with docs := store.docs.eraseP (fun d => d.id == id) },
        ⟨200, Body.productDoc product⟩)

/-! ## The cart uniqueness invariant -/

/-- The lookup key of the cart merge logic. -/
def cartKey (d : CartDoc) : String × String := (d.productId, d.email)

/-- At most one cart item per (productId, email) pair. -/
def atMostOnePerKey (docs : List CartDoc) : Prop :=
  docs.Pairwise (fun a b => cartKey a ≠ cartKey b)

instance (docs : List CartDoc) : Decidable (atMostOnePerKey docs) := by
  unfold atMostOnePerKey
  infer_instance

/-! ## List lemmas -/

theorem find?_decomp {α : Type} (p : α → Bool) :
    ∀ (l : List α) (a : α), l.find? p = some a →
      ∃ l1 l2, l = l1 ++ a :: l2 ∧ ∀ x ∈ l1, p x = false := by
  intro l
  induction l with
  | nil => intro a h; simp at h
  | cons d ds ih =>
      intro a h
      by_cases hp : p d
      · rw [List.find?_cons_of_pos _ hp] at h
        obtain rfl : d = a := by injection h
        exact ⟨[], ds, rfl, by simp⟩
      · rw [List.find?_cons_of_neg _ hp] at h
        obtain ⟨l1, l2, hl, h1⟩ := ih a h
        refine ⟨d :: l1, l2, by rw [hl]; rfl, ?_⟩
        intro x hx
        rcases List.mem_cons.mp hx with rfl | hx
        · exact Bool.of_not_eq_true hp
        · exact h1 x hx

theorem updateFirst_append {α : Type} (p : α → Bool) (f : α → α) :
    ∀ (l1 : List α) (a : α) (l2 : List α), (∀ x ∈ l1, p x = false) → p a = true →
      updateFirst p f (l1 ++ a :: l2) = l1 ++ f a :: l2 := by
  intro l1
  induction l1 with
  | nil => intro a l2 _ ha; simp [updateFirst, ha]
  | cons d ds ih =>
      intro a l2 h1 ha
      have hd : p d = false := h1 d (List.mem_cons_self d ds)
      simp only [List.cons_append, updateFirst, hd, Bool.false_eq_true, if_false]
      exact congrArg (d :: ·) (ih a l2 (fun x hx => h1 x (List.mem_cons_of_mem d hx)) ha)

theorem find?_append_first {α : Type} (p : α → Bool) :
    ∀ (l1 : List α) (b : α) (l2 : List α), (∀ x ∈ l1, p x = false) → p b = true →
      (l1 ++ b :: l2).find? p = some b := by
  intro l1
  induction l1 with
  | nil => intro b l2 _ hb; simpa [List.find?] using List.find?_cons_of_pos l2 hb
  | cons d ds ih =>
      intro b l2 h1 hb
      have hd : p d = false := h1 d (List.mem_cons_self d ds)
      rw [List.cons_append, List.find?_cons_of_neg _ (by simp [hd])]
      exact ih b l2 (fun x hx => h1 x (List.mem_cons_of_mem d hx)) hb

theorem eraseP_append_first {α : Type} (p : α → Bool) :
    ∀ (l1 : List α) (a : α) (l2 : List α), (∀ x ∈ l1, p x = false) → p a = true →
      (l1 ++ a :: l2).eraseP p = l1 ++ l2 := by
  intro l1
  induction l1 with
  | nil => intro a l2 _ ha; simp [List.eraseP_cons, ha]
  | cons d ds ih =>
      intro a l2 h1 ha
      have hd : p d = false := h1 d (List.mem_cons_self d ds)
      simp only [List.cons_append, List.eraseP_cons, hd, cond_false]
      exact congrArg (d :: ·) (ih a l2 (fun x hx => h1 x (List.mem_cons_of_mem d hx)) ha)

theorem filter_not_eq_self_of_none {α : Type} (p : α → Bool) :
    ∀ l : List α, (l.filter p).length = 0 → l.filter (fun x => !p x) = l := by
  intro l
  induction l with
  | nil => intro _; rfl
  | cons d ds ih =>
      intro h
      cases hd : p d with
      | true =>
          rw [List.filter_cons_of_pos hd] at h
          simp at h
      | false =>
          rw [List.filter_cons_of_neg (by simp [hd])] at h
          rw [List.filter_cons_of_pos (by simp [hd]), ih h]

theorem atMostOnePerKey_iff_map (l : List CartDoc) :
    atMostOnePerKey l ↔ (l.map cartKey).Pairwise (fun a b => a ≠ b) := by
  unfold atMostOnePerKey
  exact (List.pairwise_map).symm

theorem atMostOnePerKey_replace (l1 l2 : List CartDoc) (d d2 : CartDoc)
    (hk : cartKey d2 = cartKey d) (h : atMostOnePerKey (l1 ++ d :: l2)) :
    atMostOnePerKey (l1 ++ d2 :: l2) := by
  rw [atMostOnePerKey_iff_map] at h ⊢
  simpa [hk] using h

theorem isCartMatch_key (productId email : String) (d : CartDoc)
    (h : isCartMatch productId email d = true) : cartKey d = (productId, email) := by
  simp only [isCartMatch, Bool.and_eq_true, beq_iff_eq] at h
  simp [cartKey, h.1, h.2]

/-! ## Claim theorems: cart create (C1-C4) -/

/-- Claim C1: a cart-create request whose (productId, email) pair matches an
existing stored cart item increments that stored item's quantity by the
incoming quantity, persists it, and responds HTTP 200 with a body equal to
the input payload, not the merged stored document. -/
theorem cartPost_merge_increments_and_echoes_input (store : CartStore) (cart : CartInput)
    (d : CartDoc) (h : store.docs.find? (isCartMatch cart.productId cart.email) = some d) :
    (cartRouterPost store cart).2.status = 200 ∧
    (cartRouterPost store cart).2.body = Body.cartInput cart ∧
    (∀ doc : CartDoc, (cartRouterPost store cart).2.body ≠ Body.cartDoc doc) ∧
    (cartRouterPost store cart).1.docs.find? (isCartMatch cart.productId cart.email) =
      some { d with quantity := d.quantity + cart.quantity } := by
  unfold cartRouterPost
  rw [h]
  refine ⟨rfl, rfl, by simp, ?_⟩
  obtain ⟨l1, l2, hl, h1⟩ := find?_decomp _ _ _ h
  have hd : isCartMatch cart.productId cart.email d = true := List.find?_some h
  simp only
  rw [hl, updateFirst_append _ _ _ _ _ h1 hd]
  exact find?_append_first _ _ _ _ h1 (by simpa [isCartMatch] using hd)

/-- Claim C1 witness: on a store holding one matching item, the merge branch
responds 200 with the input payload and stores the summed quantity. -/
theorem cartPost_merge_increments_and_echoes_input_witness :
    (cartRouterPost ⟨[⟨0, "p1", "Mac", "a@b", "img", 2000, 1⟩], 1⟩
        ⟨"p1", "Mac", "a@b", "img", 2000, 2⟩).2.status = 200 ∧
    (cartRouterPost ⟨[⟨0, "p1", "Mac", "a@b", "img", 2000, 1⟩], 1⟩
        ⟨"p1", "Mac", "a@b", "img", 2000, 2⟩).2.body =
      Body.cartInput ⟨"p1", "Mac", "a@b", "img", 2000, 2⟩ ∧
    (∀ doc : CartDoc,
      (cartRouterPost ⟨[⟨0, "p1", "Mac", "a@b", "img", 2000, 1⟩], 1⟩
          ⟨"p1", "Mac", "a@b", "img", 2000, 2⟩).2.body ≠ Body.cartDoc doc) ∧
    (cartRouterPost ⟨[⟨0, "p1", "Mac", "a@b", "img", 2000, 1⟩], 1⟩
        ⟨"p1", "Mac", "a@b", "img", 2000, 2⟩).1.docs.find? (isCartMatch "p1" "a@b") =
      some ⟨0, "p1", "Mac", "a@b", "img", 2000, 3⟩ :=
  cartPost_merge_increments_and_echoes_input
    ⟨[⟨0, "p1", "Mac", "a@b", "img", 2000, 1⟩], 1⟩
    ⟨"p1", "Mac", "a@b", "img", 2000, 2⟩
    ⟨0, "p1", "Mac", "a@b", "img", 2000, 1⟩ (by decide)

/-- Claim C2: when a cart-create request merges into an existing
(productId, email) item, every field of the matched stored document other
than quantity is unchanged, and every other document in the store is
unchanged (the lists before and after the matched position are identical). -/
theorem cartPost_merge_frame (store : CartStore) (cart : CartInput)
    (d : CartDoc) (h : store.docs.find? (isCartMatch cart.productId cart.email) = some d) :
    ∃ l1 l2 d2,
      store.docs = l1 ++ d :: l2 ∧
      (cartRouterPost store cart).1.docs = l1 ++ d2 :: l2 ∧
      (cartRouterPost store cart).1.nextId = store.nextId ∧
      d2.id = d.id ∧ d2.productId = d.productId ∧ d2.name = d.name ∧
      d2.email = d.email ∧ d2.image = d.image ∧ d2.price = d.price ∧
      d2.quantity = d.quantity + cart.quantity := by
  obtain ⟨l1, l2, hl, h1⟩ := find?_decomp _ _ _ h
  have hd : isCartMatch cart.productId cart.email d = true := List.find?_some h
  refine ⟨l1, l2, { d with quantity := d.quantity + cart.quantity },
    hl, ?_, ?_, rfl, rfl, rfl, rfl, rfl, rfl, rfl⟩
  · unfold cartRouterPost
    rw [h]
    simp only
    rw [hl, updateFirst_append _ _ _ _ _ h1 hd]
  · unfold cartRouterPost
    rw [h]

/-- Claim C2 witness: merging into a two-item store changes only the matched
item's quantity and leaves the other document in place. -/
theorem cartPost_merge_frame_witness :
    ∃ l1 l2 d2,
      ([⟨0, "q", "Pen", "c@d", "i", 5, 7⟩, ⟨1, "p1", "Mac", "a@b", "img", 2000, 1⟩]
          : List CartDoc) = l1 ++ ⟨1, "p1", "Mac", "a@b", "img", 2000, 1⟩ :: l2 ∧
      (cartRouterPost ⟨[⟨0, "q", "Pen", "c@d", "i", 5, 7⟩,
          ⟨1, "p1", "Mac", "a@b", "img", 2000, 1⟩], 2⟩
          ⟨"p1", "Mac", "a@b", "img", 2000, 2⟩).1.docs = l1 ++ d2 :: l2 ∧
      (cartRouterPost ⟨[⟨0, "q", "Pen", "c@d", "i", 5, 7⟩,
          ⟨1, "p1", "Mac", "a@b", "img", 2000, 1⟩], 2⟩
          ⟨"p1", "Mac", "a@b", "img", 2000, 2⟩).1.nextId = 2 ∧
      d2.id = 1 ∧ d2.productId = "p1" ∧ d2.name = "Mac" ∧
      d2.email = "a@b" ∧ d2.image = "img" ∧ d2.price = 2000 ∧
      d2.quantity = 1 + 2 :=
  cartPost_merge_frame
    ⟨[⟨0, "q", "Pen", "c@d", "i", 5, 7⟩, ⟨1, "p1", "Mac", "a@b", "img", 2000, 1⟩], 2⟩
    ⟨"p1", "Mac", "a@b", "img", 2000, 2⟩
    ⟨1, "p1", "Mac", "a@b", "img", 2000, 1⟩ (by decide)

/-- Claim C3: a cart-create request matching no stored (productId, email)
pair appends exactly one new document carrying the input's fields and the
store's next generated id (fresh: distinct from every stored id), and
responds HTTP 201 with that stored document. -/
theorem cartPost_insert_new_document (store : CartStore) (cart : CartInput)
    (h : store.docs.find? (isCartMatch cart.productId cart.email) = none)
    (hfresh : ∀ x ∈ store.docs, x.id < store.nextId) :
    ∃ newDoc : CartDoc,
      (cartRouterPost store cart).1.docs = store.docs ++ [newDoc] ∧
      (cartRouterPost store cart).1.docs.length = store.docs.length + 1 ∧
      newDoc.id = store.nextId ∧
      newDoc.productId = cart.productId ∧ newDoc.name = cart.name ∧
      newDoc.email = cart.email ∧ newDoc.image = cart.image ∧
      newDoc.price = cart.price ∧ newDoc.quantity = cart.quantity ∧
      (∀ x ∈ store.docs, x.id ≠ newDoc.id) ∧
      (cartRouterPost store cart).2 = ⟨201, Body.cartDoc newDoc⟩ := by
  unfold cartRouterPost
  rw [h]
  refine ⟨_, rfl, by simp, rfl, rfl, rfl, rfl, rfl, rfl, rfl, ?_, rfl⟩
  intro x hx
  exact Nat.ne_of_lt (hfresh x hx)

/-- Claim C3 witness: inserting into a one-item store with a fresh key adds
one document with generated id 1 and answers 201 with it. -/
theorem cartPost_insert_new_document_witness :
    ∃ newDoc : CartDoc,
      (cartRouterPost ⟨[⟨0, "q", "Pen", "c@d", "i", 5, 7⟩], 1⟩
          ⟨"p1", "Mac", "a@b", "img", 2000, 2⟩).1.docs =
        [⟨0, "q", "Pen", "c@d", "i", 5, 7⟩] ++ [newDoc] ∧
      (cartRouterPost ⟨[⟨0, "q", "Pen", "c@d", "i", 5, 7⟩], 1⟩
          ⟨"p1", "Mac", "a@b", "img", 2000, 2⟩).1.docs.length =
        ([⟨0, "q", "Pen", "c@d", "i", 5, 7⟩] : List CartDoc).length + 1 ∧
      newDoc.id = 1 ∧
      newDoc.productId = "p1" ∧ newDoc.name = "Mac" ∧
      newDoc.email = "a@b" ∧ newDoc.image = "img" ∧
      newDoc.price = 2000 ∧ newDoc.quantity = 2 ∧
      (∀ x ∈ ([⟨0, "q", "Pen", "c@d", "i", 5, 7⟩] : List CartDoc), x.id ≠ newDoc.id) ∧
      (cartRouterPost ⟨[⟨0, "q", "Pen", "c@d", "i", 5, 7⟩], 1⟩
          ⟨"p1", "Mac", "a@b", "img", 2000, 2⟩).2 = ⟨201, Body.cartDoc newDoc⟩ :=
  cartPost_insert_new_document ⟨[⟨0, "q", "Pen", "c@d", "i", 5, 7⟩], 1⟩
    ⟨"p1", "Mac", "a@b", "img", 2000, 2⟩ (by decide) (by decide)

/-- Claim C4: cart-create preserves the invariant that at most one cart item
exists per (productId, email) pair: it merges into the matched item instead
of inserting a duplicate, and a fresh insert has a key no stored item has. -/
theorem cartPost_preserves_atMostOnePerKey (store : CartStore) (cart : CartInput)
    (h : atMostOnePerKey store.docs) :
    atMostOnePerKey (cartRouterPost store cart).1.docs := by
  unfold cartRouterPost
  cases hf : store.docs.find? (isCartMatch cart.productId cart.email) with
  | some d =>
      simp only
      obtain ⟨l1, l2, hl, h1⟩ := find?_decomp _ _ _ hf
      have hd : isCartMatch cart.productId cart.email d = true := List.find?_some hf
      rw [hl, updateFirst_append _ _ _ _ _ h1 hd]
      rw [hl] at h
      exact atMostOnePerKey_replace l1 l2 d _ rfl h
  | none =>
      simp only
      unfold atMostOnePerKey at h ⊢
      rw [List.pairwise_append]
      refine ⟨h, List.pairwise_singleton _ _, ?_⟩
      intro a ha b hb
      obtain rfl : b = _ := by simpa using hb
      have hna := List.find?_eq_none.mp hf a ha
      intro hkey
      apply hna
      rw [isCartMatch]
      have : a.productId = cart.productId ∧ a.email = cart.email := by
        have := congrArg Prod.fst hkey
        have h2 := congrArg Prod.snd hkey
        simp [cartKey] at this h2
        exact ⟨this, h2⟩
      simp [this.1, this.2]

/-- Claim C4 witness: on a two-item store with distinct keys the invariant
survives a merging cart-create. -/
theorem cartPost_preserves_atMostOnePerKey_witness :
    atMostOnePerKey (cartRouterPost
      ⟨[⟨0, "q", "Pen", "c@d", "i", 5, 7⟩, ⟨1, "p1", "Mac", "a@b", "img", 2000, 1⟩], 2⟩
      ⟨"p1", "Mac", "a@b", "img", 2000, 2⟩).1.docs :=
  cartPost_preserves_atMostOnePerKey
    ⟨[⟨0, "q", "Pen", "c@d", "i", 5, 7⟩, ⟨1, "p1", "Mac", "a@b", "img", 2000, 1⟩], 2⟩
    ⟨"p1", "Mac", "a@b", "img", 2000, 2⟩ (by decide)

/-! ## Claim theorems: cart clear and cart list (C5, C10) -/

/-- Claim C5: clear-by-owner removes all and only cart items whose email
equals the given email (membership characterization plus sublist, so nothing
is duplicated or reordered); it responds 200 with the deletion result when at
least one item matched, and 404 with the empty-cart message, leaving the
store unchanged, when none did. -/
theorem cartClear_removes_exactly_owner (store : CartStore) (email : String) :
    (∀ x : CartDoc, x ∈ (cartRouterDeleteClear store email).1.docs ↔
        (x ∈ store.docs ∧ x.email ≠ email)) ∧
    (cartRouterDeleteClear store email).1.docs.Sublist store.docs ∧
    (0 < (store.docs.filter (fun d => d.email == email)).length →
      (cartRouterDeleteClear store email).2 =
        ⟨200, Body.deleteResult true (store.docs.filter (fun d => d.email == email)).length⟩) ∧
    ((store.docs.filter (fun d => d.email == email)).length = 0 →
      cartRouterDeleteClear store email = (store, ⟨404, Body.message emptyCartMsg⟩)) := by
  refine ⟨?_, ?_, ?_, ?_⟩
  · intro x
    unfold cartRouterDeleteClear
    by_cases hc : 0 < (store.docs.filter (fun d => d.email == email)).length <;>
      simp [hc, List.mem_filter]
  · unfold cartRouterDeleteClear
    by_cases hc : 0 < (store.docs.filter (fun d => d.email == email)).length <;>
      simp [hc, List.filter_sublist]
  · intro hc
    unfold cartRouterDeleteClear
    simp [hc]
  · intro hc
    unfold cartRouterDeleteClear
    rw [if_neg (by rw [hc]; exact Nat.lt_irrefl 0)]
    rw [filter_not_eq_self_of_none _ _ hc]

/-- Claim C5 witness: clearing owner a@b from a two-owner store deletes the
one matching item and answers 200 with deletedCount 1; the remaining item
belongs to the other owner. -/
theorem cartClear_removes_exactly_owner_witness :
    (⟨0, "q", "Pen", "c@d", "i", 5, 7⟩ ∈
        (cartRouterDeleteClear ⟨[⟨0, "q", "Pen", "c@d", "i", 5, 7⟩,
          ⟨1, "p1", "Mac", "a@b", "img", 2000, 1⟩], 2⟩ "a@b").1.docs) ∧
    (⟨1, "p1", "Mac", "a@b", "img", 2000, 1⟩ ∉
        (cartRouterDeleteClear ⟨[⟨0, "q", "Pen", "c@d", "i", 5, 7⟩,
          ⟨1, "p1", "Mac", "a@b", "img", 2000, 1⟩], 2⟩ "a@b").1.docs) ∧
    (cartRouterDeleteClear ⟨[⟨0, "q", "Pen", "c@d", "i", 5, 7⟩,
        ⟨1, "p1", "Mac", "a@b", "img", 2000, 1⟩], 2⟩ "a@b").2 =
      ⟨200, Body.deleteResult true 1⟩ := by
  have h := cartClear_removes_exactly_owner
    ⟨[⟨0, "q", "Pen", "c@d", "i", 5, 7⟩, ⟨1, "p1", "Mac", "a@b", "img", 2000, 1⟩], 2⟩ "a@b"
  refine ⟨(h.1 _).mpr (by decide), ?_, ?_⟩
  · intro hmem
    exact absurd ((h.1 _).mp hmem).2 (by decide)
  · exact h.2.2.1 (by decide)

/-- Claim C10: list-cart-by-email writes exactly one response: HTTP 200 with
the (possibly empty) array of items whose email matches; no 404 write ever
happens, because the find query yields an array, which is truthy in JS. -/
theorem cartGetByEmail_always_200_array (store : CartStore) (email : String) :
    (∃ l : List CartDoc,
      cartRouterGetByEmail store email = [⟨200, Body.cartList l⟩] ∧
      ∀ d : CartDoc, d ∈ l ↔ (d ∈ store.docs ∧ d.email = email)) ∧
    (∀ r ∈ cartRouterGetByEmail store email, r.status = 200) := by
  constructor
  · refine ⟨store.docs.filter (fun d => d.email == email), ?_, ?_⟩
    · unfold cartRouterGetByEmail jsArrayTruthy
      rfl
    · intro d
      simp [List.mem_filter]
  · intro r hr
    unfold cartRouterGetByEmail jsArrayTruthy at hr
    simp at hr
    rw [hr]

/-! ## Claim theorems: users (C6, C7, C8) -/

/-- Claim C6: user-create responds 302 with the already-exists message and
leaves the store untouched when a stored user has the same email; otherwise
it inserts exactly one new user, defaulting photoURL to the placeholder and
role to the default role when the fields are absent (and keeping nonempty
given values), and responds 201 with the new stored document. -/
theorem userPost_conflict_or_insert_with_defaults (store : UserStore) (user : UserInput) :
    ((∃ u ∈ store.docs, u.email = user.email) →
      userRouterPost store user = (store, ⟨302, Body.message userExistsMsg⟩)) ∧
    ((∀ u ∈ store.docs, u.email ≠ user.email) →
      ∃ newUser : UserDoc,
        (userRouterPost store user).1.docs = store.docs ++ [newUser] ∧
        (userRouterPost store user).2 = ⟨201, Body.userDoc newUser⟩ ∧
        newUser.name = user.name ∧ newUser.email = user.email ∧
        (user.photoURL = none → newUser.photoURL = defaultPhotoURL) ∧
        (user.role = none → newUser.role = defaultRole) ∧
        (∀ s, user.photoURL = some s → s ≠ "" → newUser.photoURL = s) ∧
        (∀ s, user.role = some s → s ≠ "" → newUser.role = s)) := by
  constructor
  · rintro ⟨u, hu, he⟩
    unfold userRouterPost
    cases hfind : store.docs.find? (fun d => d.email == user.email) with
    | some _ => rfl
    | none =>
        have := List.find?_eq_none.mp hfind u hu
        simp [he] at this
  · intro hall
    unfold userRouterPost
    cases hfind : store.docs.find? (fun d => d.email == user.email) with
    | some u =>
        have hmem := List.mem_of_find?_eq_some hfind
        have he : u.email = user.email := by simpa using List.find?_some hfind
        exact absurd he (hall u hmem)
    | none =>
        refine ⟨_, rfl, rfl, rfl, rfl, ?_, ?_, ?_, ?_⟩
        · intro hp
          simp [hp, jsStrTruthy]
        · intro hr
          simp [hr, jsStrTruthy]
        · intro s hp hs
          simp [hp, jsStrTruthy, hs]
        · intro s hr hs
          simp [hr, jsStrTruthy, hs]

/-- Claim C6 witness: creating a user with a fresh email and absent
photoURL/role inserts one document with the defaults and answers 201; a
second create with the same email answers 302 and changes nothing. -/
theorem userPost_conflict_or_insert_with_defaults_witness :
    (∃ newUser : UserDoc,
      (userRouterPost ⟨[], 0⟩ ⟨"W", "a@b", none, none⟩).1.docs = [] ++ [newUser] ∧
      (userRouterPost ⟨[], 0⟩ ⟨"W", "a@b", none, none⟩).2 = ⟨201, Body.userDoc newUser⟩ ∧
      newUser.name = "W" ∧ newUser.email = "a@b" ∧
      newUser.photoURL = defaultPhotoURL ∧ newUser.role = defaultRole) ∧
    userRouterPost ⟨[⟨0, "W", "a@b", "x", "user"⟩], 1⟩ ⟨"W2", "a@b", none, none⟩ =
      (⟨[⟨0, "W", "a@b", "x", "user"⟩], 1⟩, ⟨302, Body.message userExistsMsg⟩) := by
  constructor
  · obtain ⟨newUser, h1, h2, h3, h4, h5, h6, _, _⟩ :=
      (userPost_conflict_or_insert_with_defaults ⟨[], 0⟩ ⟨"W", "a@b", none, none⟩).2
        (by intro u hu; simp at hu)
    exact ⟨newUser, h1, h2, h3, h4, h5 rfl, h6 rfl⟩
  · exact (userPost_conflict_or_insert_with_defaults
      ⟨[⟨0, "W", "a@b", "x", "user"⟩], 1⟩ ⟨"W2", "a@b", none, none⟩).1
      ⟨⟨0, "W", "a@b", "x", "user"⟩, by decide, rfl⟩

/-- Claim C7: the is-admin operation finds the user by email and responds 200
with an isAdmin flag that is true exactly when the found user's role is the
admin role; when no stored user has that email, the null-guardless read of
.role throws and the handler responds 500. -/
theorem userGetAdmin_flag_or_500 (store : UserStore) (email : String) :
    (∀ u, store.docs.find? (fun d => d.email == email) = some u →
      ∃ b : Bool, userRouterGetAdminByEmail store email = ⟨200, Body.isAdminFlag b⟩ ∧
        (b = true ↔ u.role = adminRole)) ∧
    ((∀ u ∈ store.docs, u.email ≠ email) →
      (userRouterGetAdminByEmail store email).status = 500) := by
  constructor
  · intro u hu
    unfold userRouterGetAdminByEmail
    rw [hu]
    exact ⟨u.role == adminRole, rfl, by simp⟩
  · intro hall
    unfold userRouterGetAdminByEmail
    cases hfind : store.docs.find? (fun d => d.email == email) with
    | none => rfl
    | some u =>
        have hmem := List.mem_of_find?_eq_some hfind
        have he : u.email = email := by simpa using List.find?_some hfind
        exact absurd he (hall u hmem)

/-- Claim C7 witness: an admin-role user yields isAdmin true; on the empty
store the lookup is null and the handler answers 500. -/
theorem userGetAdmin_flag_or_500_witness :
    (∃ b : Bool,
      userRouterGetAdminByEmail ⟨[⟨0, "W", "a@b", "x", "admin"⟩], 1⟩ "a@b" =
        ⟨200, Body.isAdminFlag b⟩ ∧ (b = true ↔ adminRole = adminRole)) ∧
    (userRouterGetAdminByEmail ⟨[], 0⟩ "a@b").status = 500 := by
  constructor
  · exact (userGetAdmin_flag_or_500 ⟨[⟨0, "W", "a@b", "x", "admin"⟩], 1⟩ "a@b").1
      ⟨0, "W", "a@b", "x", "admin"⟩ (by decide)
  · exact (userGetAdmin_flag_or_500 ⟨[], 0⟩ "a@b").2 (by intro u hu; simp at hu)

/-- Claim C8, counterexample: on the empty user store, the get-by-id handler
for id 0 commits the 404 message response, not a 200 response with a null
body, so the endpoint's result for a nonexistent id is not 200 with null. -/
theorem userGetById_missing_counterexample :
    committed (userRouterGetById ⟨[], 0⟩ 0) ≠ some ⟨200, Body.userNull⟩ ∧
    committed (userRouterGetById ⟨[], 0⟩ 0) = some ⟨404, Body.message userNotFoundMsg⟩ := by
  constructor <;> decide

/-- Claim C8 as amended: for an id with no matching user the handler does not
short-circuit: it writes the 404 message response and then still attempts to
serialize the null lookup result as a 200/null write; the committed response
(the first write) is the 404, not 200 with a null body. -/
theorem userGetById_missing_writes_404_then_null (store : UserStore) (id : Nat)
    (h : store.docs.find? (fun d => d.id == id) = none) :
    userRouterGetById store id =
      [⟨404, Body.message userNotFoundMsg⟩, ⟨200, Body.userNull⟩] ∧
    committed (userRouterGetById store id) = some ⟨404, Body.message userNotFoundMsg⟩ := by
  unfold userRouterGetById
  rw [h]
  exact ⟨rfl, rfl⟩

/-- Claim C8 amended witness: a store holding only id 0 has no user with
id 3; the handler writes the 404 then the 200/null attempt, committing the
404. -/
theorem userGetById_missing_writes_404_then_null_witness :
    userRouterGetById ⟨[⟨0, "W", "a@b", "x", "user"⟩], 1⟩ 3 =
      [⟨404, Body.message userNotFoundMsg⟩, ⟨200, Body.userNull⟩] ∧
    committed (userRouterGetById ⟨[⟨0, "W", "a@b", "x", "user"⟩], 1⟩ 3) =
      some ⟨404, Body.message userNotFoundMsg⟩ :=
  userGetById_missing_writes_404_then_null ⟨[⟨0, "W", "a@b", "x", "user"⟩], 1⟩ 3 (by decide)

/-! ## Claim theorems: products (C9) -/

/-- Claim C9: product delete-by-id, when a document with the id exists,
removes exactly that document (the surrounding lists are untouched) and
responds 200 with the deleted document; when none exists it responds 404 and
the store is unchanged. -/
theorem productDelete_removes_exactly (store : ProductStore) (id : Nat) :
    ((store.docs.find? (fun d => d.id == id) = none →
      productRouterDeleteById store id = (store, ⟨404, Body.message productNotFoundMsg⟩))) ∧
    (∀ p, store.docs.find? (fun d => d.id == id) = some p →
      p.id = id ∧
      ∃ l1 l2, store.docs = l1 ++ p :: l2 ∧ (∀ x ∈ l1, x.id ≠ id) ∧
        (productRouterDeleteById store id).1.docs = l1 ++ l2 ∧
        (productRouterDeleteById store id).1.nextId = store.nextId ∧
        (productRouterDeleteById store id).2 = ⟨200, Body.productDoc p⟩) := by
  constructor
  · intro h
    unfold productRouterDeleteById
    rw [h]
  · intro p hp
    have hpid : p.id = id := by simpa using List.find?_some hp
    obtain ⟨l1, l2, hl, h1⟩ := find?_decomp _ _ _ hp
    refine ⟨hpid, l1, l2, hl, ?_, ?_, ?_, ?_⟩
    · intro x hx
      have := h1 x hx
      simpa using this
    · unfold productRouterDeleteById
      rw [hp]
      simp only
      rw [hl]
      exact eraseP_append_first (fun d => d.id == id) l1 p l2 h1 (by simp [hpid])
    · unfold productRouterDeleteById
      rw [hp]
    · unfold productRouterDeleteById
      rw [hp]

/-- Claim C9 witness: deleting the absent id 9 from a two-product store
answers 404 with the store unchanged, and deleting id 1 answers 200 with the
deleted document. -/
theorem productDelete_removes_exactly_witness :
    (productRouterDeleteById ⟨[⟨0, "Pen", 5, "d", "i", "c"⟩,
        ⟨1, "Mac", 2000, "d2", "i2", "c2"⟩], 2⟩ 9 =
      (⟨[⟨0, "Pen", 5, "d", "i", "c"⟩, ⟨1, "Mac", 2000, "d2", "i2", "c2"⟩], 2⟩,
        ⟨404, Body.message productNotFoundMsg⟩)) ∧
    (productRouterDeleteById ⟨[⟨0, "Pen", 5, "d", "i", "c"⟩,
        ⟨1, "Mac", 2000, "d2", "i2", "c2"⟩], 2⟩ 1).2 =
      ⟨200, Body.productDoc ⟨1, "Mac", 2000, "d2", "i2", "c2"⟩⟩ := by
  constructor
  · exact (productDelete_removes_exactly ⟨[⟨0, "Pen", 5, "d", "i", "c"⟩,
      ⟨1, "Mac", 2000, "d2", "i2", "c2"⟩], 2⟩ 9).1 (by decide)
  · obtain ⟨-, l1, l2, -, -, -, -, h4⟩ :=
      (productDelete_removes_exactly ⟨[⟨0, "Pen", 5, "d", "i", "c"⟩,
        ⟨1, "Mac", 2000, "d2", "i2", "c2"⟩], 2⟩ 1).2
        ⟨1, "Mac", 2000, "d2", "i2", "c2"⟩ (by decide)
    exact h4
